import Mathlib

/-
Verification development for the configuration-resolution core of
SpencerBrown/mongodb-tls-certs (src/config/config.go).

Modelling conventions:
* Go maps (`map[string]string`, `map[string]*Cert`) are modelled as association
  lists processed in one fixed iteration order.  Go's map iteration order is
  unspecified, so a deterministic list order realises one possible execution.
* The issuer back-reference `IssuerCert *Cert` is modelled as the issuer's key
  in the certificate mapping (`Option String`): map keys are unique in Go, so
  the key identifies the pointed-to entry.
* `GetConfig` is modelled from the point after YAML unmarshalling: it takes the
  unmarshalled document (file reading and YAML parsing are the external
  collaborators of spec section 6) and returns the final state of the global
  `Config` variable together with the returned error, `none` meaning `nil`.
* During the second certificate loop the Go code looks certificates up in the
  live global map; that loop only ever writes the `IssuerCert` field, which it
  never reads, so looking up in the snapshot produced by the first loop is
  observationally identical and is how `pass2` is written below.
-/

-- defaults for directories and extensions (config.go lines 13-18)
def defaultPublicDirectory : String := "tls"

def defaultPrivateDirectory : String := "tls/private"

def defaultExtensionKey : String := "key"

def defaultExtensionCert : String := "pem"

-- Certificate types as enums (config.go lines 21-27, iota values)
def RootCACert : Nat := 0

def IntermediateCACert : Nat := 1

def OCSPSigningCert : Nat := 2

def ServerCert : Nat := 3

def ClientCert : Nat := 4

/-- The ASCII single-quote character used by the Go error format string of
`getCertType` (written via its character code). -/
def squote : String := (Char.ofNat 39).toString

-- Error messages, exactly as produced by the fmt.Errorf calls in config.go.

/-- Message of `getCertType` (config.go line 49). -/
def invalidCertTypeMsg (typeString : String) : String :=
  "invalid certificate type " ++ squote ++ typeString ++ squote

/-- Message of config.go line 118 (unrecognized key in the directories section). -/
def invalidDirEntryMsg (dirName configFilename : String) : String :=
  "invalid entry " ++ dirName ++ " in directories section of config file " ++ configFilename

/-- Message of config.go line 133 (unrecognized key in the extensions section).
The Go code passes the entry's value `ext`, not the file name, as the second
format argument; this is kept faithfully. -/
def invalidExtEntryMsg (extName ext : String) : String :=
  "invalid entry " ++ extName ++ " in extensions section of config file " ++ ext

/-- Message of config.go line 147.  The Go code passes `certName` to the first
format slot and `cert.TypeString` to the second, so the certificate name ends
up after the words "invalid type"; this is kept faithfully. -/
def invalidTypeMsg (certName typeString : String) : String :=
  "invalid type " ++ certName ++ " for certificate " ++ typeString

/-- Message of config.go line 165. -/
def selfSignedWithIssuerMsg (certName : String) : String :=
  "self-signed certificate " ++ certName ++ " must not have issuer"

/-- Message of config.go line 171. -/
def missingIssuerMsg (certName issuer : String) : String :=
  "certificate " ++ certName ++ " has missing issuer " ++ issuer

/-- Message of config.go line 174. -/
def issuerNotAuthorityMsg (certName issuer : String) : String :=
  "certificate " ++ certName ++ " has issuer " ++ issuer ++ " that is not a CA"

/-- Information about a certificate (config.go lines 30-34). -/
structure certInfo where
  ctype : Nat
  isCA : Bool
  isSelfSigned : Bool
  deriving DecidableEq, Repr

instance : DecidableEq (Except String certInfo) := fun a b =>
  match a, b with
  | .ok x, .ok y =>
    if h : x = y then isTrue (by rw [h]) else isFalse (fun hc => h (Except.ok.inj hc))
  | .error x, .error y =>
    if h : x = y then isTrue (by rw [h]) else isFalse (fun hc => h (Except.error.inj hc))
  | .ok _, .error _ => isFalse (fun hc => Except.noConfusion hc)
  | .error _, .ok _ => isFalse (fun hc => Except.noConfusion hc)

/-- `getCertType` converts a type string to information about the kind of
certificate it is (config.go lines 37-51).  The Go map literal lookup is
written as the corresponding chain of key comparisons. -/
def getCertType (typeString : String) : Except String certInfo :=
  if typeString = "rootCA" then .ok ⟨RootCACert, true, true⟩
  else if typeString = "intermediateCA" then .ok ⟨IntermediateCACert, true, false⟩
  else if typeString = "OCSPSigning" then .ok ⟨OCSPSigningCert, false, false⟩
  else if typeString = "server" then .ok ⟨ServerCert, false, false⟩
  else if typeString = "client" then .ok ⟨ClientCert, false, false⟩
  else .error (invalidCertTypeMsg typeString)

/-- Does `getCertType` succeed on this certificate's type tag? -/
def tagOK (c : String) : Bool :=
  match getCertType c with
  | .ok _ => true
  | .error _ => false

/-- SubjectType is the type for a subject name (config.go lines 54-58). -/
structure SubjectType where
  O : String := ""
  OU : String := ""
  CN : String := ""
  deriving DecidableEq, Repr

/-- Internal representation of a certificate specification (config.go lines
62-75).  `ctype` is the Go field `Type`; the crypto fields `PrivateKey` and
`Certificate` are filled by later pipeline stages, never by `GetConfig`, and
are omitted.  `IssuerCert` holds the issuer's map key (see header comment). -/
structure Cert where
  TypeString : String := ""
  Issuer : String := ""
  Subject : SubjectType := {}
  Hosts : List String := []
  ctype : Nat := 0
  IsCA : Bool := false
  IsSelfSigned : Bool := false
  IssuerCert : Option String := none
  deriving DecidableEq, Repr

/-- Internal representation of the entire config file (config.go lines 79-92,
the Go type named `Type`).  The programmatic fields start at their Go zero
values. -/
structure ConfigType where
  Directories : List (String × String) := []
  Extensions : List (String × String) := []
  Subject : SubjectType := {}
  KeyFiles : List String := []
  Certificates : List (String × Cert) := []
  Combos : List (String × List String) := []
  PublicDirectory : String := ""
  PrivateDirectory : String := ""
  ExtensionKey : String := ""
  ExtensionCert : String := ""
  deriving DecidableEq, Repr

/-- Go map indexing `Config.Certificates[name]`: first entry with the key. -/
def lookupCert : List (String × Cert) → String → Option Cert
  | [], _ => none
  | p :: rest, name => if p.1 = name then some p.2 else lookupCert rest name

/-- The subject-defaulting of config.go lines 152-160: each of the three
fields independently falls back to the document-level subject when empty. -/
def resolveSubject (spec fallback : SubjectType) : SubjectType :=
  { O := if spec.O = "" then fallback.O else spec.O
    OU := if spec.OU = "" then fallback.OU else spec.OU
    CN := if spec.CN = "" then fallback.CN else spec.CN }

/-- The common shape of the directories loop (config.go lines 110-121) and the
extensions loop (lines 125-136): two recognized keys updating two string
fields, any other key aborting with an error built from the entry. -/
def twoKeyLoop (key1 key2 : String) (errMsg : String → String → String) (val1 val2 : String) :
    List (String × String) → (String × String) × Option String
  | [] => ((val1, val2), none)
  | (k, v) :: rest =>
    if k = key1 then twoKeyLoop key1 key2 errMsg v val2 rest
    else if k = key2 then twoKeyLoop key1 key2 errMsg val1 v rest
    else ((val1, val2), some (errMsg k v))

/-- The directories loop (config.go lines 110-121), acting on the
`PublicDirectory`/`PrivateDirectory` fields it assigns. -/
def dirLoop (configFilename pubDir privDir : String) (l : List (String × String)) :
    (String × String) × Option String :=
  twoKeyLoop "public" "private" (fun dirName _ => invalidDirEntryMsg dirName configFilename)
    pubDir privDir l

/-- The extensions loop (config.go lines 125-136), acting on the
`ExtensionKey`/`ExtensionCert` fields it assigns. -/
def extLoop (extKey extCert : String) (l : List (String × String)) :
    (String × String) × Option String :=
  twoKeyLoop "key" "certificate" (fun extName ext => invalidExtEntryMsg extName ext)
    extKey extCert l

/-- First certificate loop (config.go lines 144-161): classify each type tag
and default the subject fields.  On a bad tag the loop stops, leaving the
remaining certificates untouched (the Go loop mutates through pointers and
returns early). -/
def pass1 (subject : SubjectType) : List (String × Cert) → List (String × Cert) × Option String
  | [] => ([], none)
  | (certName, cert) :: rest =>
    match getCertType cert.TypeString with
    | .error _ => ((certName, cert) :: rest, some (invalidTypeMsg certName cert.TypeString))
    | .ok certType =>
      let cert' : Cert :=
        { cert with
          ctype := certType.ctype
          IsCA := certType.isCA
          IsSelfSigned := certType.isSelfSigned
          Subject := resolveSubject cert.Subject subject }
      let res := pass1 subject rest
      ((certName, cert') :: res.1, res.2)

/-- Second certificate loop (config.go lines 162-178): self-signed
certificates must have no issuer; other certificates get their issuer looked
up (`IssuerCert` is assigned before the missing/not-a-CA checks, exactly as in
the Go code) and the issuer must exist and be a CA.  `table` is the
certificate map as left by `pass1`; see the header comment for why looking up
in this snapshot coincides with the Go lookup in the live map. -/
def pass2 (table : List (String × Cert)) : List (String × Cert) → List (String × Cert) × Option String
  | [] => ([], none)
  | (certName, cert) :: rest =>
    if cert.IsSelfSigned then
      if cert.Issuer = "" then
        let res := pass2 table rest
        ((certName, cert) :: res.1, res.2)
      else ((certName, cert) :: rest, some (selfSignedWithIssuerMsg certName))
    else
      match lookupCert table cert.Issuer with
      | none =>
        ((certName, { cert with IssuerCert := none }) :: rest,
          some (missingIssuerMsg certName cert.Issuer))
      | some issuerCert =>
        let cert' : Cert := { cert with IssuerCert := some cert.Issuer }
        if issuerCert.IsCA then
          let res := pass2 table rest
          ((certName, cert') :: res.1, res.2)
        else ((certName, cert') :: rest, some (issuerNotAuthorityMsg certName cert.Issuer))

/-- The state of the global `Config` after the directories section has been
processed (defaults at lines 108-109, loop at lines 110-121).  The loop only
assigns the two directory fields. -/
def dirsResolved (configFilename : String) (doc : ConfigType) : ConfigType :=
  { doc with
    PublicDirectory :=
      (dirLoop configFilename defaultPublicDirectory defaultPrivateDirectory doc.Directories).1.1
    PrivateDirectory :=
      (dirLoop configFilename defaultPublicDirectory defaultPrivateDirectory doc.Directories).1.2 }

/-- The state after the extensions section has been processed (defaults at
lines 123-124, loop at lines 125-136). -/
def extsResolved (doc : ConfigType) : ConfigType :=
  { doc with
    ExtensionKey := (extLoop defaultExtensionKey defaultExtensionCert doc.Extensions).1.1
    ExtensionCert := (extLoop defaultExtensionKey defaultExtensionCert doc.Extensions).1.2 }

/-- `GetConfig` (config.go lines 98-180), modelled from the point after YAML
unmarshalling: given the unmarshalled document it returns the final state of
the global `Config` together with the returned error (`none` = `nil`).  The
stages run in source order — directory defaults and loop, extension defaults
and loop, certificate classification pass, issuer-linking pass — and each
error return surfaces the state mutated so far.  The extensions loop reads
`Config.Extensions` and the certificate passes read `Config.Subject` and
`Config.Certificates`, none of which an earlier stage modifies. -/
def GetConfig (configFilename : String) (doc : ConfigType) : ConfigType × Option String :=
  match (dirLoop configFilename defaultPublicDirectory defaultPrivateDirectory doc.Directories).2 with
  | some e => (dirsResolved configFilename doc, some e)
  | none =>
    match (extLoop defaultExtensionKey defaultExtensionCert doc.Extensions).2 with
    | some e => (extsResolved (dirsResolved configFilename doc), some e)
    | none =>
      match (pass1 doc.Subject doc.Certificates).2 with
      | some e =>
        ({ extsResolved (dirsResolved configFilename doc) with
            Certificates := (pass1 doc.Subject doc.Certificates).1 }, some e)
      | none =>
        ({ extsResolved (dirsResolved configFilename doc) with
            Certificates :=
              (pass2 (pass1 doc.Subject doc.Certificates).1
                (pass1 doc.Subject doc.Certificates).1).1 },
          (pass2 (pass1 doc.Subject doc.Certificates).1
            (pass1 doc.Subject doc.Certificates).1).2)

/-- The per-certificate transformation performed by `pass1` on a certificate
whose tag is recognized. -/
def transformCert (subject : SubjectType) (c : Cert) : Cert :=
  match getCertType c.TypeString with
  | .ok certType =>
    { c with
      ctype := certType.ctype
      IsCA := certType.isCA
      IsSelfSigned := certType.isSelfSigned
      Subject := resolveSubject c.Subject subject }
  | .error _ => c

/-- The update performed by `pass2` on a certificate that passes its check. -/
def linkCert (c : Cert) : Cert :=
  if c.IsSelfSigned then c else { c with IssuerCert := some c.Issuer }

/-- The per-certificate condition under which `pass2` continues past an entry
(on the classified fields, looked up in `table`). -/
def certCheckOK (table : List (String × Cert)) (p : String × Cert) : Bool :=
  if p.2.IsSelfSigned then p.2.Issuer = ""
  else
    match lookupCert table p.2.Issuer with
    | some issuerCert => issuerCert.IsCA
    | none => false

/-- The `pass2` check expressed on the raw (pre-classification) certificates:
the tag must be recognized and the classified self-signed/authority facts must
satisfy the linking rules. -/
def classifiedCheckOK (certs : List (String × Cert)) (p : String × Cert) : Bool :=
  match getCertType p.2.TypeString with
  | .error _ => false
  | .ok ci =>
    if ci.isSelfSigned then p.2.Issuer = ""
    else
      match lookupCert certs p.2.Issuer with
      | some ic =>
        match getCertType ic.TypeString with
        | .ok ici => ici.isCA
        | .error _ => false
      | none => false

/-- `sub` occurs as a substring of `s`. -/
def containsStr (s sub : String) : Prop := ∃ a b, s = a ++ sub ++ b

-- ------------------------------------------------------------------
-- Helper lemmas
-- ------------------------------------------------------------------

theorem lookupCert_map (f : Cert → Cert) (l : List (String × Cert)) (name : String) :
    lookupCert (l.map (fun p => (p.1, f p.2))) name = (lookupCert l name).map f := by
  induction l with
  | nil => rfl
  | cons p rest ih => by_cases h : p.1 = name <;> simp [lookupCert, h, ih]

theorem lookupCert_mem (l : List (String × Cert)) (name : String) (c : Cert)
    (h : lookupCert l name = some c) : (name, c) ∈ l := by
  induction l with
  | nil => simp [lookupCert] at h
  | cons p rest ih =>
    by_cases hp : p.1 = name
    · simp [lookupCert, hp] at h
      have hpe : (name, c) = p := by rw [← hp, ← h]
      rw [hpe]
      exact List.mem_cons_self _ _
    · simp [lookupCert, hp] at h
      exact List.mem_cons_of_mem _ (ih h)

theorem twoKeyLoop_ok (key1 key2 : String) (errMsg : String → String → String)
    (l : List (String × String)) (h : ∀ p ∈ l, p.1 = key1 ∨ p.1 = key2) :
    ∀ val1 val2, (twoKeyLoop key1 key2 errMsg val1 val2 l).2 = none := by
  induction l with
  | nil => intro a b; rfl
  | cons p rest ih =>
    intro a b
    obtain ⟨k, v⟩ := p
    have hrest := fun q hq => h q (List.mem_cons_of_mem _ hq)
    simp only [twoKeyLoop]
    by_cases hk1 : k = key1
    · rw [if_pos hk1]
      exact ih hrest v b
    · have hk2 : k = key2 := (h (k, v) (List.mem_cons_self _ _)).resolve_left hk1
      rw [if_neg hk1, if_pos hk2]
      exact ih hrest a v

theorem twoKeyLoop_err_first (key1 key2 : String) (errMsg : String → String → String)
    (pre : List (String × String)) (k v : String) (post : List (String × String))
    (hpre : ∀ q ∈ pre, q.1 = key1 ∨ q.1 = key2) (hk : ¬(k = key1 ∨ k = key2)) :
    ∀ val1 val2,
      (twoKeyLoop key1 key2 errMsg val1 val2 (pre ++ (k, v) :: post)).2 = some (errMsg k v) := by
  induction pre with
  | nil =>
    intro a b
    have hk1 : ¬k = key1 := fun hc => hk (Or.inl hc)
    have hk2 : ¬k = key2 := fun hc => hk (Or.inr hc)
    simp only [List.nil_append, twoKeyLoop]
    rw [if_neg hk1, if_neg hk2]
  | cons q rest ih =>
    intro a b
    obtain ⟨qk, qv⟩ := q
    have hrest := fun r hr => hpre r (List.mem_cons_of_mem _ hr)
    simp only [List.cons_append, twoKeyLoop]
    by_cases hq1 : qk = key1
    · rw [if_pos hq1]
      exact ih hrest qv b
    · have hq2 : qk = key2 := (hpre (qk, qv) (List.mem_cons_self _ _)).resolve_left hq1
      rw [if_neg hq1, if_pos hq2]
      exact ih hrest a qv

theorem twoKeyLoop_fst_absent (key1 key2 : String) (errMsg : String → String → String)
    (l : List (String × String)) (h : key1 ∉ l.map Prod.fst) :
    ∀ val1 val2, (twoKeyLoop key1 key2 errMsg val1 val2 l).1.1 = val1 := by
  induction l with
  | nil => intro a b; rfl
  | cons p rest ih =>
    intro a b
    obtain ⟨k, v⟩ := p
    have hk1 : ¬k = key1 := by
      intro hc
      exact h (by simp [hc])
    have hrest : key1 ∉ rest.map Prod.fst := by
      intro hc
      exact h (by simp [hc])
    simp only [twoKeyLoop]
    rw [if_neg hk1]
    by_cases hk2 : k = key2
    · rw [if_pos hk2]
      exact ih hrest a v
    · rw [if_neg hk2]

theorem twoKeyLoop_snd_absent (key1 key2 : String) (errMsg : String → String → String)
    (l : List (String × String)) (h : key2 ∉ l.map Prod.fst) :
    ∀ val1 val2, (twoKeyLoop key1 key2 errMsg val1 val2 l).1.2 = val2 := by
  induction l with
  | nil => intro a b; rfl
  | cons p rest ih =>
    intro a b
    obtain ⟨k, v⟩ := p
    have hk2 : ¬k = key2 := by
      intro hc
      exact h (by simp [hc])
    have hrest : key2 ∉ rest.map Prod.fst := by
      intro hc
      exact h (by simp [hc])
    simp only [twoKeyLoop]
    by_cases hk1 : k = key1
    · rw [if_pos hk1]
      exact ih hrest v b
    · rw [if_neg hk1, if_neg hk2]

theorem twoKeyLoop_fst_mem (key1 key2 : String) (errMsg : String → String → String)
    (l : List (String × String)) (v : String)
    (hrec : ∀ p ∈ l, p.1 = key1 ∨ p.1 = key2) (hnd : (l.map Prod.fst).Nodup)
    (hmem : (key1, v) ∈ l) :
    ∀ val1 val2, (twoKeyLoop key1 key2 errMsg val1 val2 l).1.1 = v := by
  induction l with
  | nil => cases hmem
  | cons p rest ih =>
    intro a b
    obtain ⟨k, kv⟩ := p
    rw [List.map_cons] at hnd
    have hhead : (k, kv).1 ∉ rest.map Prod.fst := (List.nodup_cons.mp hnd).1
    have hnd' : (rest.map Prod.fst).Nodup := (List.nodup_cons.mp hnd).2
    simp only [twoKeyLoop]
    rcases List.mem_cons.mp hmem with heq | hmem'
    · obtain ⟨hk, hv⟩ := Prod.mk.inj heq
      subst hv
      rw [if_pos hk.symm]
      have habs : key1 ∉ rest.map Prod.fst := hk ▸ hhead
      exact twoKeyLoop_fst_absent key1 key2 errMsg rest habs v b
    · have hk1 : ¬k = key1 := by
        intro hc
        apply hhead
        rw [hc]
        exact List.mem_map.mpr ⟨(key1, v), hmem', rfl⟩
      have hk2 : k = key2 := (hrec (k, kv) (List.mem_cons_self _ _)).resolve_left hk1
      rw [if_neg hk1, if_pos hk2]
      exact ih (fun q hq => hrec q (List.mem_cons_of_mem _ hq)) hnd' hmem' a kv

theorem twoKeyLoop_snd_mem (key1 key2 : String) (errMsg : String → String → String)
    (l : List (String × String)) (v : String) (hne : key1 ≠ key2)
    (hrec : ∀ p ∈ l, p.1 = key1 ∨ p.1 = key2) (hnd : (l.map Prod.fst).Nodup)
    (hmem : (key2, v) ∈ l) :
    ∀ val1 val2, (twoKeyLoop key1 key2 errMsg val1 val2 l).1.2 = v := by
  induction l with
  | nil => cases hmem
  | cons p rest ih =>
    intro a b
    obtain ⟨k, kv⟩ := p
    rw [List.map_cons] at hnd
    have hhead : (k, kv).1 ∉ rest.map Prod.fst := (List.nodup_cons.mp hnd).1
    have hnd' : (rest.map Prod.fst).Nodup := (List.nodup_cons.mp hnd).2
    simp only [twoKeyLoop]
    rcases List.mem_cons.mp hmem with heq | hmem'
    · obtain ⟨hk, hv⟩ := Prod.mk.inj heq
      subst hv
      have hk1 : ¬k = key1 := by
        intro hc
        exact hne (hk ▸ hc : key2 = key1).symm
      rw [if_neg hk1, if_pos hk.symm]
      have habs : key2 ∉ rest.map Prod.fst := hk ▸ hhead
      exact twoKeyLoop_snd_absent key1 key2 errMsg rest habs a v
    · have hk2 : ¬k = key2 := by
        intro hc
        apply hhead
        rw [hc]
        exact List.mem_map.mpr ⟨(key2, v), hmem', rfl⟩
      by_cases hk1 : k = key1
      · rw [if_pos hk1]
        exact ih (fun q hq => hrec q (List.mem_cons_of_mem _ hq)) hnd' hmem' kv b
      · exact absurd ((hrec (k, kv) (List.mem_cons_self _ _)).resolve_left hk1) hk2

theorem transformCert_IsSelfSigned (s : SubjectType) (c : Cert) (ci : certInfo)
    (h : getCertType c.TypeString = .ok ci) :
    (transformCert s c).IsSelfSigned = ci.isSelfSigned := by
  simp [transformCert, h]

theorem transformCert_IsCA (s : SubjectType) (c : Cert) (ci : certInfo)
    (h : getCertType c.TypeString = .ok ci) : (transformCert s c).IsCA = ci.isCA := by
  simp [transformCert, h]

theorem transformCert_Issuer (s : SubjectType) (c : Cert) :
    (transformCert s c).Issuer = c.Issuer := by
  cases h : getCertType c.TypeString <;> simp [transformCert, h]

theorem linkCert_IsSelfSigned (c : Cert) : (linkCert c).IsSelfSigned = c.IsSelfSigned := by
  by_cases h : c.IsSelfSigned <;> simp [linkCert, h]

theorem linkCert_Issuer (c : Cert) : (linkCert c).Issuer = c.Issuer := by
  by_cases h : c.IsSelfSigned <;> simp [linkCert, h]

theorem linkCert_IsCA (c : Cert) : (linkCert c).IsCA = c.IsCA := by
  by_cases h : c.IsSelfSigned <;> simp [linkCert, h]

theorem linkCert_IssuerCert (c : Cert) (h : c.IsSelfSigned = false) :
    (linkCert c).IssuerCert = some c.Issuer := by
  simp [linkCert, h]

theorem pass1_none_state (s : SubjectType) (l : List (String × Cert))
    (h : (pass1 s l).2 = none) :
    (pass1 s l).1 = l.map (fun p => (p.1, transformCert s p.2)) := by
  induction l with
  | nil => rfl
  | cons p rest ih =>
    obtain ⟨n, c⟩ := p
    cases hg : getCertType c.TypeString with
    | error e => simp [pass1, hg] at h
    | ok ci =>
      simp only [pass1, hg] at h ⊢
      simp only [List.map_cons]
      refine congrArg₂ _ ?_ (ih h)
      simp [transformCert, hg]

theorem pass1_none_tags (s : SubjectType) (l : List (String × Cert))
    (h : (pass1 s l).2 = none) : ∀ p ∈ l, tagOK p.2.TypeString = true := by
  induction l with
  | nil => intro p hp; cases hp
  | cons q rest ih =>
    obtain ⟨n, c⟩ := q
    cases hg : getCertType c.TypeString with
    | error e => simp [pass1, hg] at h
    | ok ci =>
      simp only [pass1, hg] at h
      intro p hp
      rcases List.mem_cons.mp hp with rfl | hp'
      · simp [tagOK, hg]
      · exact ih h p hp'

theorem pass1_none_of_tags (s : SubjectType) (l : List (String × Cert))
    (h : ∀ p ∈ l, tagOK p.2.TypeString = true) : (pass1 s l).2 = none := by
  induction l with
  | nil => rfl
  | cons q rest ih =>
    obtain ⟨n, c⟩ := q
    have hq := h (n, c) (List.mem_cons_self _ _)
    cases hg : getCertType c.TypeString with
    | error e => simp [tagOK, hg] at hq
    | ok ci =>
      simp only [pass1, hg]
      exact ih (fun p hp => h p (List.mem_cons_of_mem _ hp))

theorem pass2_err_of_not_ok (table : List (String × Cert)) (l : List (String × Cert))
    (p : String × Cert) (hp : p ∈ l) (h : certCheckOK table p = false) :
    ((pass2 table l).2).isSome = true := by
  induction l with
  | nil => cases hp
  | cons q rest ih =>
    obtain ⟨n, c⟩ := q
    cases hss : c.IsSelfSigned with
    | true =>
      by_cases hiss : c.Issuer = ""
      · rcases List.mem_cons.mp hp with rfl | hp'
        · simp [certCheckOK, hss, hiss] at h
        · simp only [pass2, hss, if_true, hiss, if_pos]
          simpa using ih hp'
      · simp [pass2, hss, hiss]
    | false =>
      cases hl : lookupCert table c.Issuer with
      | none => simp [pass2, hss, hl]
      | some ic =>
        cases hca : ic.IsCA with
        | true =>
          rcases List.mem_cons.mp hp with rfl | hp'
          · simp [certCheckOK, hss, hl, hca] at h
          · simp only [pass2, hss, hl, hca]
            simpa using ih hp'
        | false => simp [pass2, hss, hl, hca]

theorem pass2_append_ok (table : List (String × Cert)) (pre l : List (String × Cert))
    (h : ∀ q ∈ pre, certCheckOK table q = true) :
    (pass2 table (pre ++ l)).2 = (pass2 table l).2 := by
  induction pre with
  | nil => rfl
  | cons q rest ih =>
    obtain ⟨n, c⟩ := q
    have hq := h (n, c) (List.mem_cons_self _ _)
    have hrest := fun r hr => h r (List.mem_cons_of_mem _ hr)
    cases hss : c.IsSelfSigned with
    | true =>
      have hiss : c.Issuer = "" := by simpa [certCheckOK, hss] using hq
      simp only [List.cons_append, pass2, hss, hiss, if_true, if_pos]
      simpa using ih hrest
    | false =>
      cases hl : lookupCert table c.Issuer with
      | none => simp [certCheckOK, hss, hl] at hq
      | some ic =>
        have hca : ic.IsCA = true := by simpa [certCheckOK, hss, hl] using hq
        simp only [List.cons_append, pass2, hss, hl, hca]
        simpa using ih hrest

theorem pass2_none_state (table : List (String × Cert)) (l : List (String × Cert))
    (h : (pass2 table l).2 = none) :
    (pass2 table l).1 = l.map (fun p => (p.1, linkCert p.2)) := by
  induction l with
  | nil => rfl
  | cons q rest ih =>
    obtain ⟨n, c⟩ := q
    cases hss : c.IsSelfSigned with
    | true =>
      by_cases hiss : c.Issuer = ""
      · simp only [pass2, hss, hiss, if_true, if_pos] at h ⊢
        simp only [List.map_cons]
        refine congrArg₂ _ ?_ (by simpa using ih (by simpa using h))
        simp [linkCert, hss]
      · simp [pass2, hss, hiss] at h
    | false =>
      cases hl : lookupCert table c.Issuer with
      | none => simp [pass2, hss, hl] at h
      | some ic =>
        cases hca : ic.IsCA with
        | false => simp [pass2, hss, hl, hca] at h
        | true =>
          simp only [pass2, hss, hl, hca] at h ⊢
          simp only [List.map_cons]
          refine congrArg₂ _ ?_ (by simpa using ih (by simpa using h))
          simp [linkCert, hss]

theorem pass2_none_check (table : List (String × Cert)) (l : List (String × Cert))
    (h : (pass2 table l).2 = none) : ∀ p ∈ l, certCheckOK table p = true := by
  induction l with
  | nil => intro p hp; cases hp
  | cons q rest ih =>
    obtain ⟨n, c⟩ := q
    intro p hp
    cases hss : c.IsSelfSigned with
    | true =>
      by_cases hiss : c.Issuer = ""
      · rcases List.mem_cons.mp hp with rfl | hp'
        · simp [certCheckOK, hss, hiss]
        · simp only [pass2, hss, hiss, if_true, if_pos] at h
          exact ih (by simpa using h) p hp'
      · simp [pass2, hss, hiss] at h
    | false =>
      cases hl : lookupCert table c.Issuer with
      | none => simp [pass2, hss, hl] at h
      | some ic =>
        cases hca : ic.IsCA with
        | false => simp [pass2, hss, hl, hca] at h
        | true =>
          rcases List.mem_cons.mp hp with rfl | hp'
          · simp [certCheckOK, hss, hl, hca]
          · simp only [pass2, hss, hl, hca] at h
            exact ih (by simpa using h) p hp'

theorem pass2_cons_selfSigned_err (table : List (String × Cert)) (n : String) (c : Cert)
    (rest : List (String × Cert)) (hss : c.IsSelfSigned = true) (hiss : c.Issuer ≠ "") :
    (pass2 table ((n, c) :: rest)).2 = some (selfSignedWithIssuerMsg n) := by
  simp [pass2, hss, hiss]

theorem pass2_cons_missing (table : List (String × Cert)) (n : String) (c : Cert)
    (rest : List (String × Cert)) (hss : c.IsSelfSigned = false)
    (hl : lookupCert table c.Issuer = none) :
    (pass2 table ((n, c) :: rest)).2 = some (missingIssuerMsg n c.Issuer) := by
  simp [pass2, hss, hl]

theorem pass2_cons_notCA (table : List (String × Cert)) (n : String) (c : Cert)
    (rest : List (String × Cert)) (ic : Cert) (hss : c.IsSelfSigned = false)
    (hl : lookupCert table c.Issuer = some ic) (hca : ic.IsCA = false) :
    (pass2 table ((n, c) :: rest)).2 = some (issuerNotAuthorityMsg n c.Issuer) := by
  simp [pass2, hss, hl, hca]

theorem certCheckOK_transform (s : SubjectType) (l : List (String × Cert))
    (hall : ∀ r ∈ l, tagOK r.2.TypeString = true) (q : String × Cert) (hq : q ∈ l) :
    certCheckOK (l.map (fun p => (p.1, transformCert s p.2))) (q.1, transformCert s q.2) =
      classifiedCheckOK l q := by
  have hqt := hall q hq
  cases hg : getCertType q.2.TypeString with
  | error e => simp [tagOK, hg] at hqt
  | ok ci =>
    have hss := transformCert_IsSelfSigned s q.2 ci hg
    have hIss := transformCert_Issuer s q.2
    cases hsv : ci.isSelfSigned with
    | true => simp [certCheckOK, classifiedCheckOK, hg, hss, hsv, hIss]
    | false =>
      simp only [certCheckOK, classifiedCheckOK, hg, hss, hsv, hIss, Bool.false_eq_true,
        if_false]
      rw [lookupCert_map]
      cases hl : lookupCert l q.2.Issuer with
      | none => simp
      | some ic =>
        have hicmem := lookupCert_mem l q.2.Issuer ic hl
        have hict := hall (q.2.Issuer, ic) hicmem
        cases hgi : getCertType ic.TypeString with
        | error e => simp [tagOK, hgi] at hict
        | ok ici => simp [transformCert_IsCA s ic ici hgi, hgi]

theorem GetConfig_dir_err (fn : String) (doc : ConfigType) (e : String)
    (hd : (dirLoop fn defaultPublicDirectory defaultPrivateDirectory doc.Directories).2 = some e) :
    GetConfig fn doc = (dirsResolved fn doc, some e) := by
  unfold GetConfig
  rw [hd]

theorem GetConfig_ext_err (fn : String) (doc : ConfigType) (e : String)
    (hd : (dirLoop fn defaultPublicDirectory defaultPrivateDirectory doc.Directories).2 = none)
    (he : (extLoop defaultExtensionKey defaultExtensionCert doc.Extensions).2 = some e) :
    GetConfig fn doc = (extsResolved (dirsResolved fn doc), some e) := by
  unfold GetConfig
  rw [hd, he]

theorem GetConfig_pass1_err (fn : String) (doc : ConfigType) (e : String)
    (hd : (dirLoop fn defaultPublicDirectory defaultPrivateDirectory doc.Directories).2 = none)
    (he : (extLoop defaultExtensionKey defaultExtensionCert doc.Extensions).2 = none)
    (hp : (pass1 doc.Subject doc.Certificates).2 = some e) :
    GetConfig fn doc =
      ({ extsResolved (dirsResolved fn doc) with
          Certificates := (pass1 doc.Subject doc.Certificates).1 }, some e) := by
  unfold GetConfig
  rw [hd, he, hp]

theorem GetConfig_pass2_stage (fn : String) (doc : ConfigType)
    (hd : (dirLoop fn defaultPublicDirectory defaultPrivateDirectory doc.Directories).2 = none)
    (he : (extLoop defaultExtensionKey defaultExtensionCert doc.Extensions).2 = none)
    (hp : (pass1 doc.Subject doc.Certificates).2 = none) :
    GetConfig fn doc =
      ({ extsResolved (dirsResolved fn doc) with
          Certificates :=
            (pass2 (pass1 doc.Subject doc.Certificates).1
              (pass1 doc.Subject doc.Certificates).1).1 },
        (pass2 (pass1 doc.Subject doc.Certificates).1
          (pass1 doc.Subject doc.Certificates).1).2) := by
  unfold GetConfig
  rw [hd, he, hp]

theorem getConfig_section_fields (fn : String) (doc : ConfigType)
    (hd : (dirLoop fn defaultPublicDirectory defaultPrivateDirectory doc.Directories).2 = none)
    (he : (extLoop defaultExtensionKey defaultExtensionCert doc.Extensions).2 = none) :
    (GetConfig fn doc).1.PublicDirectory =
        (dirLoop fn defaultPublicDirectory defaultPrivateDirectory doc.Directories).1.1 ∧
      (GetConfig fn doc).1.PrivateDirectory =
        (dirLoop fn defaultPublicDirectory defaultPrivateDirectory doc.Directories).1.2 ∧
      (GetConfig fn doc).1.ExtensionKey =
        (extLoop defaultExtensionKey defaultExtensionCert doc.Extensions).1.1 ∧
      (GetConfig fn doc).1.ExtensionCert =
        (extLoop defaultExtensionKey defaultExtensionCert doc.Extensions).1.2 := by
  unfold GetConfig
  rw [hd, he]
  cases hp : (pass1 doc.Subject doc.Certificates).2 <;>
    simp [dirsResolved, extsResolved]

/-- On every path, `GetConfig` either returns an error or returns `none`;
the error component of the result is the error of the first failing stage. -/
theorem GetConfig_err_isSome_of_pass2 (fn : String) (doc : ConfigType)
    (hd : (dirLoop fn defaultPublicDirectory defaultPrivateDirectory doc.Directories).2 = none)
    (he : (extLoop defaultExtensionKey defaultExtensionCert doc.Extensions).2 = none)
    (hp : (pass1 doc.Subject doc.Certificates).2 = none)
    (h2 : ((pass2 (pass1 doc.Subject doc.Certificates).1
      (pass1 doc.Subject doc.Certificates).1).2).isSome = true) :
    ((GetConfig fn doc).2).isSome = true := by
  rw [GetConfig_pass2_stage fn doc hd he hp]
  exact h2

/-- A document containing any certificate that violates the classification or
linking rules makes `GetConfig` return an error (no matter which stage fails
first). -/
theorem GetConfig_err_of_violation (fn : String) (doc : ConfigType) (p : String × Cert)
    (hp : p ∈ doc.Certificates) (hv : classifiedCheckOK doc.Certificates p = false) :
    ((GetConfig fn doc).2).isSome = true := by
  cases hd : (dirLoop fn defaultPublicDirectory defaultPrivateDirectory doc.Directories).2 with
  | some e => rw [GetConfig_dir_err fn doc e hd]; rfl
  | none =>
    cases he : (extLoop defaultExtensionKey defaultExtensionCert doc.Extensions).2 with
    | some e => rw [GetConfig_ext_err fn doc e hd he]; rfl
    | none =>
      cases hpass : (pass1 doc.Subject doc.Certificates).2 with
      | some e => rw [GetConfig_pass1_err fn doc e hd he hpass]; rfl
      | none =>
        apply GetConfig_err_isSome_of_pass2 fn doc hd he hpass
        have hall := pass1_none_tags doc.Subject doc.Certificates hpass
        have hstate := pass1_none_state doc.Subject doc.Certificates hpass
        rw [hstate]
        apply pass2_err_of_not_ok _ _ (p.1, transformCert doc.Subject p.2)
        · exact List.mem_map.mpr ⟨p, hp, rfl⟩
        · rw [certCheckOK_transform doc.Subject doc.Certificates hall p hp]
          exact hv

/-- When the sections are clean, every tag is recognized and every certificate
before `(n, c)` in iteration order passes its linking check, the error of
`GetConfig` is the error `pass2` produces at `(n, c)`. -/
theorem GetConfig_first_violation (fn : String) (doc : ConfigType)
    (pre post : List (String × Cert)) (n : String) (c : Cert)
    (hdirs : ∀ p ∈ doc.Directories, p.1 = "public" ∨ p.1 = "private")
    (hexts : ∀ p ∈ doc.Extensions, p.1 = "key" ∨ p.1 = "certificate")
    (htags : ∀ q ∈ doc.Certificates, tagOK q.2.TypeString = true)
    (hsplit : doc.Certificates = pre ++ (n, c) :: post)
    (hpre : ∀ q ∈ pre, classifiedCheckOK doc.Certificates q = true) :
    (GetConfig fn doc).2 =
      (pass2 (doc.Certificates.map (fun p => (p.1, transformCert doc.Subject p.2)))
        ((n, transformCert doc.Subject c) ::
          post.map (fun p => (p.1, transformCert doc.Subject p.2)))).2 := by
  have hd : (dirLoop fn defaultPublicDirectory defaultPrivateDirectory doc.Directories).2 = none :=
    twoKeyLoop_ok "public" "private" _ doc.Directories hdirs _ _
  have he : (extLoop defaultExtensionKey defaultExtensionCert doc.Extensions).2 = none :=
    twoKeyLoop_ok "key" "certificate" _ doc.Extensions hexts _ _
  have hpass : (pass1 doc.Subject doc.Certificates).2 = none :=
    pass1_none_of_tags doc.Subject doc.Certificates htags
  have hstate := pass1_none_state doc.Subject doc.Certificates hpass
  have heq : doc.Certificates.map (fun p => (p.1, transformCert doc.Subject p.2)) =
      pre.map (fun p => (p.1, transformCert doc.Subject p.2)) ++
        ((n, transformCert doc.Subject c) ::
          post.map (fun p => (p.1, transformCert doc.Subject p.2))) := by
    rw [hsplit, List.map_append, List.map_cons]
  have hpre' : ∀ q' ∈ pre.map (fun p => (p.1, transformCert doc.Subject p.2)),
      certCheckOK (doc.Certificates.map (fun p => (p.1, transformCert doc.Subject p.2))) q' =
        true := by
    intro q' hq'
    obtain ⟨q, hqmem, rfl⟩ := List.mem_map.mp hq'
    have hqdoc : q ∈ doc.Certificates := by
      rw [hsplit]
      exact List.mem_append_left _ hqmem
    rw [certCheckOK_transform doc.Subject doc.Certificates htags q hqdoc]
    exact hpre q hqmem
  rw [GetConfig_pass2_stage fn doc hd he hpass]
  show (pass2 (pass1 doc.Subject doc.Certificates).1 (pass1 doc.Subject doc.Certificates).1).2 = _
  rw [hstate]
  nth_rewrite 2 [heq]
  exact pass2_append_ok _ _ _ hpre'

/-- A certificate that passes its `pass2` check and is not self-signed has an
issuer entry in the table, and that entry is a CA. -/
theorem certCheckOK_not_selfSigned (table : List (String × Cert)) (p : String × Cert)
    (hss : p.2.IsSelfSigned = false) (h : certCheckOK table p = true) :
    ∃ ic, lookupCert table p.2.Issuer = some ic ∧ ic.IsCA = true := by
  simp only [certCheckOK, hss] at h
  cases hl : lookupCert table p.2.Issuer with
  | none => rw [hl] at h; simp at h
  | some ic =>
    rw [hl] at h
    simp only [Bool.false_eq_true, if_false] at h
    exact ⟨ic, rfl, h⟩

/-- If `pass2` reports no error, every non-self-signed certificate of its
output refers (by issuer name) to an entry of the output that is a CA, and its
back-reference holds that issuer name. -/
theorem pass2_invariant (table : List (String × Cert))
    (h : (pass2 table table).2 = none) :
    ∀ p ∈ (pass2 table table).1, p.2.IsSelfSigned = false →
      ∃ ic, lookupCert (pass2 table table).1 p.2.Issuer = some ic ∧
        ic.IsCA = true ∧ p.2.IssuerCert = some p.2.Issuer := by
  have hstate := pass2_none_state table table h
  have hcheck := pass2_none_check table table h
  intro p hp hss
  rw [hstate] at hp
  obtain ⟨q, hq, hqe⟩ := List.mem_map.mp hp
  have hp2 : p.2 = linkCert q.2 := (congrArg Prod.snd hqe).symm
  have hqss : q.2.IsSelfSigned = false := by
    rw [← linkCert_IsSelfSigned q.2, ← hp2]
    exact hss
  obtain ⟨ic, hl, hca⟩ := certCheckOK_not_selfSigned table q hqss (hcheck q hq)
  have hpi : p.2.Issuer = q.2.Issuer := by
    rw [hp2]
    exact linkCert_Issuer q.2
  refine ⟨linkCert ic, ?_, ?_, ?_⟩
  · rw [hstate, hpi, lookupCert_map, hl]
    rfl
  · rw [linkCert_IsCA]
    exact hca
  · rw [hp2, linkCert_Issuer]
    exact linkCert_IssuerCert q.2 hqss

/-- Claim C2: for each of the five recognized tags, classification returns
exactly the (type, isAuthority, isSelfSigned) tuple of the table; every other
tag fails with the invalid-certificate-type error, and at the `GetConfig`
level the failure message names both the offending certificate and the
offending tag (which also occur in the message as substrings). -/
theorem getCertType_classification :
    (getCertType "rootCA" = .ok ⟨RootCACert, true, true⟩ ∧
      getCertType "intermediateCA" = .ok ⟨IntermediateCACert, true, false⟩ ∧
      getCertType "OCSPSigning" = .ok ⟨OCSPSigningCert, false, false⟩ ∧
      getCertType "server" = .ok ⟨ServerCert, false, false⟩ ∧
      getCertType "client" = .ok ⟨ClientCert, false, false⟩) ∧
    (∀ s : String,
      s ∉ (["rootCA", "intermediateCA", "OCSPSigning", "server", "client"] : List String) →
        getCertType s = .error (invalidCertTypeMsg s)) ∧
    (∀ (subject : SubjectType) (certName : String) (cert : Cert)
        (rest : List (String × Cert)),
      cert.TypeString ∉
          (["rootCA", "intermediateCA", "OCSPSigning", "server", "client"] : List String) →
        (pass1 subject ((certName, cert) :: rest)).2 =
          some (invalidTypeMsg certName cert.TypeString)) ∧
    (∀ certName typeString : String,
      containsStr (invalidTypeMsg certName typeString) certName ∧
        containsStr (invalidTypeMsg certName typeString) typeString) := by
  have hbad : ∀ s : String,
      s ∉ (["rootCA", "intermediateCA", "OCSPSigning", "server", "client"] : List String) →
        getCertType s = .error (invalidCertTypeMsg s) := by
    intro s hs
    simp only [List.mem_cons, List.not_mem_nil, or_false, not_or] at hs
    obtain ⟨h1, h2, h3, h4, h5⟩ := hs
    simp [getCertType, h1, h2, h3, h4, h5]
  refine ⟨⟨rfl, rfl, rfl, rfl, rfl⟩, hbad, ?_, ?_⟩
  · intro subject certName cert rest hmem
    simp [pass1, hbad cert.TypeString hmem]
  · intro certName typeString
    constructor
    · refine ⟨"invalid type ", " for certificate " ++ typeString, ?_⟩
      simp [invalidTypeMsg, String.append_assoc]
    · refine ⟨"invalid type " ++ certName ++ " for certificate ", "", ?_⟩
      simp [invalidTypeMsg, String.append_assoc]

/-- Witness for the hypotheses of the classification theorem at the concrete
unrecognized tag "bogus". -/
theorem getCertType_classification_witness :
    getCertType "bogus" = .error (invalidCertTypeMsg "bogus") ∧
      (pass1 {} [("c1", { TypeString := "bogus" })]).2 = some (invalidTypeMsg "c1" "bogus") := by
  exact ⟨getCertType_classification.2.1 "bogus" (by decide),
    getCertType_classification.2.2.1 {} "c1" { TypeString := "bogus" } [] (by decide)⟩

/-- Document with a pure two-cycle of intermediate authorities: A is issued by
B and B is issued by A, with no self-signed root. -/
def c3doc : ConfigType :=
  { Certificates :=
      [("A", { TypeString := "intermediateCA", Issuer := "B" }),
       ("B", { TypeString := "intermediateCA", Issuer := "A" })] }

/-- Claim C3: on the pure intermediate-authority cycle document, resolution
succeeds — no error is returned and both back-references are linked, so every
per-edge check passed. -/
theorem GetConfig_intermediate_cycle_accepted :
    (GetConfig "config.yaml" c3doc).2 = none ∧
      (lookupCert (GetConfig "config.yaml" c3doc).1.Certificates "A").map Cert.IssuerCert =
        some (some "B") ∧
      (lookupCert (GetConfig "config.yaml" c3doc).1.Certificates "B").map Cert.IssuerCert =
        some (some "A") := by
  exact ⟨by decide, by decide, by decide⟩

/-- Claim C8: subject defaulting is field-wise and independent — each resolved
field equals the fallback field exactly when the spec's field is empty — it
never fails (the function is total), the concrete example from the spec
resolves as stated, and this is exactly the defaulting `pass1` applies to
every certificate with a recognized tag. -/
theorem resolveSubject_fieldwise :
    (∀ spec fallback : SubjectType,
      (resolveSubject spec fallback).O = (if spec.O = "" then fallback.O else spec.O) ∧
        (resolveSubject spec fallback).OU = (if spec.OU = "" then fallback.OU else spec.OU) ∧
        (resolveSubject spec fallback).CN = (if spec.CN = "" then fallback.CN else spec.CN)) ∧
    resolveSubject { O := "", OU := "X", CN := "" } { O := "Acme", OU := "Y", CN := "foo.com" } =
      { O := "Acme", OU := "X", CN := "foo.com" } ∧
    (∀ (s : SubjectType) (c : Cert) (ci : certInfo), getCertType c.TypeString = .ok ci →
      (transformCert s c).Subject = resolveSubject c.Subject s) := by
  refine ⟨fun spec fallback => ⟨rfl, rfl, rfl⟩, by decide, ?_⟩
  intro s c ci h
  simp [transformCert, h]

/-- Witness for the classification hypothesis of the subject-defaulting
theorem: the spec's concrete example routed through `pass1`'s transformation
of a `server` certificate. -/
theorem resolveSubject_fieldwise_witness :
    (transformCert { O := "Acme", OU := "Y", CN := "foo.com" }
        { TypeString := "server", Subject := { O := "", OU := "X", CN := "" } }).Subject =
      { O := "Acme", OU := "X", CN := "foo.com" } := by
  have h := resolveSubject_fieldwise.2.2 { O := "Acme", OU := "Y", CN := "foo.com" }
    { TypeString := "server", Subject := { O := "", OU := "X", CN := "" } }
    ⟨ServerCert, false, false⟩ (by decide)
  rw [h]
  decide

/-- Claim C4: for every document on which `GetConfig` succeeds, every
certificate of the resolved model that is not self-signed has an issuer name
that refers to an existing entry of the resolved certificate map, that entry
is a CA, and the certificate's issuer back-reference points to that entry. -/
theorem GetConfig_success_issuer_invariant (fn : String) (doc : ConfigType)
    (hok : (GetConfig fn doc).2 = none) :
    ∀ p ∈ (GetConfig fn doc).1.Certificates, p.2.IsSelfSigned = false →
      ∃ ic, lookupCert (GetConfig fn doc).1.Certificates p.2.Issuer = some ic ∧
        ic.IsCA = true ∧ p.2.IssuerCert = some p.2.Issuer := by
  cases hd : (dirLoop fn defaultPublicDirectory defaultPrivateDirectory doc.Directories).2 with
  | some e => rw [GetConfig_dir_err fn doc e hd] at hok; simp at hok
  | none =>
    cases he : (extLoop defaultExtensionKey defaultExtensionCert doc.Extensions).2 with
    | some e => rw [GetConfig_ext_err fn doc e hd he] at hok; simp at hok
    | none =>
      cases hpass : (pass1 doc.Subject doc.Certificates).2 with
      | some e => rw [GetConfig_pass1_err fn doc e hd he hpass] at hok; simp at hok
      | none =>
        rw [GetConfig_pass2_stage fn doc hd he hpass] at hok ⊢
        exact pass2_invariant _ hok

/-- Document for scenario A of the spec: a root CA plus one server issued by
it. -/
def c4doc : ConfigType :=
  { Certificates :=
      [("root", { TypeString := "rootCA" }),
       ("server1", { TypeString := "server", Issuer := "root" })] }

/-- The resolved server certificate of the scenario-A document. -/
def c4serverOut : Cert :=
  (lookupCert (GetConfig "config.yaml" c4doc).1.Certificates "server1").getD {}

/-- Witness for the issuer-invariant theorem at the concrete scenario-A
document: `GetConfig` succeeds on it and the invariant instantiates at the
resolved server certificate, whose back-reference indeed names its issuer. -/
theorem GetConfig_success_issuer_invariant_witness :
    c4serverOut.IssuerCert = some c4serverOut.Issuer ∧ c4serverOut.Issuer = "root" := by
  obtain ⟨ic, h1, h2, h3⟩ := GetConfig_success_issuer_invariant "config.yaml" c4doc (by decide)
    ("server1", c4serverOut) (by decide) (by decide)
  exact ⟨h3, by decide⟩

/-- Document with a server certificate whose issuer is absent, plus an
unrecognized key in the directories section (which fails first). -/
def c5cex : ConfigType :=
  { Directories := [("backup", "/b")],
    Certificates := [("srv", { TypeString := "server", Issuer := "ghost" })] }

/-- Counterexample to claim C5 as stated: this document contains a
certificate classified non-self-signed whose issuer name is absent from the
certificate mapping, yet resolution fails with the unrecognized-directory-key
error, not with the missing-issuer error naming that certificate. -/
theorem GetConfig_missing_issuer_cex :
    getCertType "server" = .ok ⟨ServerCert, false, false⟩ ∧
      lookupCert c5cex.Certificates "ghost" = none ∧
      (GetConfig "f" c5cex).2 = some (invalidDirEntryMsg "backup" "f") ∧
      invalidDirEntryMsg "backup" "f" ≠ missingIssuerMsg "srv" "ghost" := by
  exact ⟨by decide, by decide, by decide, by decide⟩

/-- Claim C5 (amended): a document containing a certificate whose classified
isSelfSigned is false and whose issuer name is absent from the certificate
mapping always fails to resolve; the error is the missing-issuer error naming
that certificate and the missing issuer name whenever that certificate's
violation is the first encountered in processing order (recognized section
keys and tags, no earlier certificate violating a linking rule). -/
theorem GetConfig_missing_issuer (fn : String) (doc : ConfigType) (certName : String)
    (cert : Cert) (ci : certInfo) (hmem : (certName, cert) ∈ doc.Certificates)
    (hty : getCertType cert.TypeString = .ok ci) (hss : ci.isSelfSigned = false)
    (hlook : lookupCert doc.Certificates cert.Issuer = none) :
    ((GetConfig fn doc).2).isSome = true ∧
    (∀ pre post : List (String × Cert),
      (∀ p ∈ doc.Directories, p.1 = "public" ∨ p.1 = "private") →
      (∀ p ∈ doc.Extensions, p.1 = "key" ∨ p.1 = "certificate") →
      (∀ q ∈ doc.Certificates, tagOK q.2.TypeString = true) →
      doc.Certificates = pre ++ (certName, cert) :: post →
      (∀ q ∈ pre, classifiedCheckOK doc.Certificates q = true) →
      (GetConfig fn doc).2 = some (missingIssuerMsg certName cert.Issuer)) := by
  constructor
  · apply GetConfig_err_of_violation fn doc (certName, cert) hmem
    simp [classifiedCheckOK, hty, hss, hlook]
  · intro pre post hdirs hexts htags hsplit hpre
    rw [GetConfig_first_violation fn doc pre post certName cert hdirs hexts htags hsplit hpre]
    have hss' : (transformCert doc.Subject cert).IsSelfSigned = false := by
      rw [transformCert_IsSelfSigned doc.Subject cert ci hty]
      exact hss
    have hl' : lookupCert
        (doc.Certificates.map (fun p => (p.1, transformCert doc.Subject p.2)))
        (transformCert doc.Subject cert).Issuer = none := by
      rw [transformCert_Issuer, lookupCert_map, hlook]
      rfl
    rw [pass2_cons_missing _ _ _ _ hss' hl', transformCert_Issuer]

/-- Document for which the missing-issuer error is the first violation. -/
def c5wit : ConfigType :=
  { Certificates := [("srv", { TypeString := "server", Issuer := "ghost" })] }

/-- Witness for the amended missing-issuer theorem at a concrete document
whose only violation is the absent issuer. -/
theorem GetConfig_missing_issuer_witness :
    (GetConfig "f" c5wit).2 = some (missingIssuerMsg "srv" "ghost") := by
  have h := GetConfig_missing_issuer "f" c5wit "srv"
    { TypeString := "server", Issuer := "ghost" } ⟨ServerCert, false, false⟩
    (by decide) (by decide) (by decide) (by decide)
  exact h.2 [] [] (by decide) (by decide) (by decide) (by decide) (by decide)

/-- Document with a server certificate whose issuer is a client (not a CA),
plus an unrecognized key in the directories section (which fails first). -/
def c6cex : ConfigType :=
  { Directories := [("backup", "/b")],
    Certificates :=
      [("srv", { TypeString := "server", Issuer := "cl" }),
       ("cl", { TypeString := "client" })] }

/-- Counterexample to claim C6 as stated: this document contains a
non-self-signed certificate whose issuer entry exists but whose resolved
isAuthority is false, yet resolution fails with the
unrecognized-directory-key error, not with the issuer-not-authority error. -/
theorem GetConfig_issuer_not_authority_cex :
    getCertType "client" = .ok ⟨ClientCert, false, false⟩ ∧
      lookupCert c6cex.Certificates "cl" = some { TypeString := "client" } ∧
      (GetConfig "f" c6cex).2 = some (invalidDirEntryMsg "backup" "f") ∧
      invalidDirEntryMsg "backup" "f" ≠ issuerNotAuthorityMsg "srv" "cl" := by
  exact ⟨by decide, by decide, by decide, by decide⟩

/-- Claim C6 (amended): a document containing a certificate whose classified
isSelfSigned is false and whose issuer name refers to an entry whose
classified isAuthority is false always fails to resolve; the error is the
issuer-not-a-CA error naming both certificates (through the certificate name
and the issuer name) whenever that certificate's violation is the first
encountered in processing order. -/
theorem GetConfig_issuer_not_authority (fn : String) (doc : ConfigType) (certName : String)
    (cert ic : Cert) (ci ici : certInfo) (hmem : (certName, cert) ∈ doc.Certificates)
    (hty : getCertType cert.TypeString = .ok ci) (hss : ci.isSelfSigned = false)
    (hlook : lookupCert doc.Certificates cert.Issuer = some ic)
    (htyi : getCertType ic.TypeString = .ok ici) (hica : ici.isCA = false) :
    ((GetConfig fn doc).2).isSome = true ∧
    (∀ pre post : List (String × Cert),
      (∀ p ∈ doc.Directories, p.1 = "public" ∨ p.1 = "private") →
      (∀ p ∈ doc.Extensions, p.1 = "key" ∨ p.1 = "certificate") →
      (∀ q ∈ doc.Certificates, tagOK q.2.TypeString = true) →
      doc.Certificates = pre ++ (certName, cert) :: post →
      (∀ q ∈ pre, classifiedCheckOK doc.Certificates q = true) →
      (GetConfig fn doc).2 = some (issuerNotAuthorityMsg certName cert.Issuer)) := by
  constructor
  · apply GetConfig_err_of_violation fn doc (certName, cert) hmem
    simp [classifiedCheckOK, hty, hss, hlook, htyi, hica]
  · intro pre post hdirs hexts htags hsplit hpre
    rw [GetConfig_first_violation fn doc pre post certName cert hdirs hexts htags hsplit hpre]
    have hss' : (transformCert doc.Subject cert).IsSelfSigned = false := by
      rw [transformCert_IsSelfSigned doc.Subject cert ci hty]
      exact hss
    have hl' : lookupCert
        (doc.Certificates.map (fun p => (p.1, transformCert doc.Subject p.2)))
        (transformCert doc.Subject cert).Issuer = some (transformCert doc.Subject ic) := by
      rw [transformCert_Issuer, lookupCert_map, hlook]
      rfl
    have hica' : (transformCert doc.Subject ic).IsCA = false := by
      rw [transformCert_IsCA doc.Subject ic ici htyi]
      exact hica
    rw [pass2_cons_notCA _ _ _ _ _ hss' hl' hica', transformCert_Issuer]

/-- Document for which the issuer-not-a-CA error is the first violation
(spec scenario B). -/
def c6wit : ConfigType :=
  { Certificates :=
      [("srv", { TypeString := "server", Issuer := "cl" }),
       ("cl", { TypeString := "client" })] }

/-- Witness for the amended issuer-not-authority theorem at a concrete
document whose only violation is the non-CA issuer. -/
theorem GetConfig_issuer_not_authority_witness :
    (GetConfig "f" c6wit).2 = some (issuerNotAuthorityMsg "srv" "cl") := by
  have h := GetConfig_issuer_not_authority "f" c6wit "srv"
    { TypeString := "server", Issuer := "cl" } { TypeString := "client" }
    ⟨ServerCert, false, false⟩ ⟨ClientCert, false, false⟩
    (by decide) (by decide) (by decide) (by decide) (by decide) (by decide)
  exact h.2 [] [("cl", { TypeString := "client" })]
    (by decide) (by decide) (by decide) (by decide) (by decide)

/-- Document with a root CA declaring an issuer, plus an unrecognized key in
the directories section (which fails first). -/
def c7cex : ConfigType :=
  { Directories := [("backup", "/b")],
    Certificates := [("root1", { TypeString := "rootCA", Issuer := "other" })] }

/-- Counterexample to claim C7 as stated: this document contains a rootCA
certificate (classified self-signed) with a non-empty issuer name, yet
resolution fails with the unrecognized-directory-key error, not with the
self-signed-with-issuer error. -/
theorem GetConfig_self_signed_with_issuer_cex :
    getCertType "rootCA" = .ok ⟨RootCACert, true, true⟩ ∧
      (GetConfig "f" c7cex).2 = some (invalidDirEntryMsg "backup" "f") ∧
      invalidDirEntryMsg "backup" "f" ≠ selfSignedWithIssuerMsg "root1" := by
  exact ⟨by decide, by decide, by decide⟩

/-- Claim C7 (amended): a document containing a certificate whose classified
isSelfSigned is true (tag rootCA) and whose issuer name is non-empty always
fails to resolve; the error is the self-signed-with-issuer error naming that
certificate whenever that certificate's violation is the first encountered in
processing order. -/
theorem GetConfig_self_signed_with_issuer (fn : String) (doc : ConfigType) (certName : String)
    (cert : Cert) (ci : certInfo) (hmem : (certName, cert) ∈ doc.Certificates)
    (hty : getCertType cert.TypeString = .ok ci) (hss : ci.isSelfSigned = true)
    (hiss : cert.Issuer ≠ "") :
    ((GetConfig fn doc).2).isSome = true ∧
    (∀ pre post : List (String × Cert),
      (∀ p ∈ doc.Directories, p.1 = "public" ∨ p.1 = "private") →
      (∀ p ∈ doc.Extensions, p.1 = "key" ∨ p.1 = "certificate") →
      (∀ q ∈ doc.Certificates, tagOK q.2.TypeString = true) →
      doc.Certificates = pre ++ (certName, cert) :: post →
      (∀ q ∈ pre, classifiedCheckOK doc.Certificates q = true) →
      (GetConfig fn doc).2 = some (selfSignedWithIssuerMsg certName)) := by
  constructor
  · apply GetConfig_err_of_violation fn doc (certName, cert) hmem
    simp [classifiedCheckOK, hty, hss, hiss]
  · intro pre post hdirs hexts htags hsplit hpre
    rw [GetConfig_first_violation fn doc pre post certName cert hdirs hexts htags hsplit hpre]
    have hss' : (transformCert doc.Subject cert).IsSelfSigned = true := by
      rw [transformCert_IsSelfSigned doc.Subject cert ci hty]
      exact hss
    have hiss' : (transformCert doc.Subject cert).Issuer ≠ "" := by
      rw [transformCert_Issuer]
      exact hiss
    exact pass2_cons_selfSigned_err _ _ _ _ hss' hiss'

/-- Document for which the self-signed-with-issuer error is the first
violation (spec scenario C). -/
def c7wit : ConfigType :=
  { Certificates := [("root1", { TypeString := "rootCA", Issuer := "other" })] }

/-- Witness for the amended self-signed-with-issuer theorem at a concrete
document whose only violation is the declared issuer. -/
theorem GetConfig_self_signed_with_issuer_witness :
    (GetConfig "f" c7wit).2 = some (selfSignedWithIssuerMsg "root1") := by
  have h := GetConfig_self_signed_with_issuer "f" c7wit "root1"
    { TypeString := "rootCA", Issuer := "other" } ⟨RootCACert, true, true⟩
    (by decide) (by decide) (by decide) (by decide)
  exact h.2 [] [] (by decide) (by decide) (by decide) (by decide) (by decide)

/-- Document with a server certificate whose issuer field is empty (and no
entry keyed by the empty string), plus an unrecognized key in the directories
section (which fails first). -/
def c10cex : ConfigType :=
  { Directories := [("backup", "/b")],
    Certificates := [("srv", { TypeString := "server" })] }

/-- Counterexample to claim C10 as stated: this document contains a
non-self-signed certificate with an empty issuer name and no entry keyed by
the empty string, yet resolution fails with the unrecognized-directory-key
error, not with the missing-issuer error with the empty name. -/
theorem GetConfig_empty_issuer_cex :
    getCertType "server" = .ok ⟨ServerCert, false, false⟩ ∧
      lookupCert c10cex.Certificates "" = none ∧
      (GetConfig "f" c10cex).2 = some (invalidDirEntryMsg "backup" "f") ∧
      invalidDirEntryMsg "backup" "f" ≠ missingIssuerMsg "srv" "" := by
  exact ⟨by decide, by decide, by decide, by decide⟩

/-- Claim C10 (amended): a document containing a certificate with a
non-self-signed classified type and an empty issuer name, where no entry is
keyed by the empty string, always fails to resolve; an omitted issuer is
treated as a lookup miss, so the error is the missing-issuer error naming the
certificate and the empty issuer name whenever that certificate's violation
is the first encountered in processing order. -/
theorem GetConfig_empty_issuer (fn : String) (doc : ConfigType) (certName : String)
    (cert : Cert) (ci : certInfo) (hmem : (certName, cert) ∈ doc.Certificates)
    (hty : getCertType cert.TypeString = .ok ci) (hss : ci.isSelfSigned = false)
    (hiss : cert.Issuer = "") (hlook : lookupCert doc.Certificates "" = none) :
    ((GetConfig fn doc).2).isSome = true ∧
    (∀ pre post : List (String × Cert),
      (∀ p ∈ doc.Directories, p.1 = "public" ∨ p.1 = "private") →
      (∀ p ∈ doc.Extensions, p.1 = "key" ∨ p.1 = "certificate") →
      (∀ q ∈ doc.Certificates, tagOK q.2.TypeString = true) →
      doc.Certificates = pre ++ (certName, cert) :: post →
      (∀ q ∈ pre, classifiedCheckOK doc.Certificates q = true) →
      (GetConfig fn doc).2 = some (missingIssuerMsg certName "")) := by
  have hlook' : lookupCert doc.Certificates cert.Issuer = none := by
    rw [hiss]
    exact hlook
  constructor
  · apply GetConfig_err_of_violation fn doc (certName, cert) hmem
    simp [classifiedCheckOK, hty, hss, hlook']
  · intro pre post hdirs hexts htags hsplit hpre
    rw [GetConfig_first_violation fn doc pre post certName cert hdirs hexts htags hsplit hpre]
    have hss' : (transformCert doc.Subject cert).IsSelfSigned = false := by
      rw [transformCert_IsSelfSigned doc.Subject cert ci hty]
      exact hss
    have hl' : lookupCert
        (doc.Certificates.map (fun p => (p.1, transformCert doc.Subject p.2)))
        (transformCert doc.Subject cert).Issuer = none := by
      rw [transformCert_Issuer, lookupCert_map, hlook']
      rfl
    rw [pass2_cons_missing _ _ _ _ hss' hl', transformCert_Issuer, hiss]

/-- Document whose only violation is a server certificate with an omitted
issuer field. -/
def c10wit : ConfigType :=
  { Certificates := [("srv", { TypeString := "server" })] }

/-- Witness for the amended empty-issuer theorem at a concrete document. -/
theorem GetConfig_empty_issuer_witness :
    (GetConfig "f" c10wit).2 = some (missingIssuerMsg "srv" "") := by
  have h := GetConfig_empty_issuer "f" c10wit "srv" { TypeString := "server" }
    ⟨ServerCert, false, false⟩ (by decide) (by decide) (by decide) (by decide) (by decide)
  exact h.2 [] [] (by decide) (by decide) (by decide) (by decide) (by decide)

/-- Document whose only flaw is an unrecognized certificate type tag. -/
def c1cex : ConfigType := { Certificates := [("bad", { TypeString := "bogus" })] }

/-- Counterexample to claim C1 as stated: `GetConfig` fails on this document,
yet the observable configuration state afterwards is neither the zero value
the global `Config` holds before a fresh run nor the bare unmarshalled
document — the resolved directory and extension defaults remain visible in
the global state despite the error. -/
theorem GetConfig_error_not_atomic_cex :
    (GetConfig "f" c1cex).2 = some (invalidTypeMsg "bad" "bogus") ∧
      (GetConfig "f" c1cex).1 ≠ ({} : ConfigType) ∧
      (GetConfig "f" c1cex).1 ≠ c1cex ∧
      (GetConfig "f" c1cex).1.PublicDirectory = "tls" := by
  exact ⟨by decide, by decide, by decide, by decide⟩

/-- Claim C1 (amended): errors are not atomic.  When `GetConfig` fails after
the directories and extensions sections resolved cleanly, the
partially-resolved model remains observable to the caller: the resolved
directory and extension values persist in the final state of the global
configuration even though an error is returned. -/
theorem GetConfig_partial_state_on_error (fn : String) (doc : ConfigType) (e : String)
    (hd : (dirLoop fn defaultPublicDirectory defaultPrivateDirectory doc.Directories).2 = none)
    (he : (extLoop defaultExtensionKey defaultExtensionCert doc.Extensions).2 = none)
    (_herr : (GetConfig fn doc).2 = some e) :
    (GetConfig fn doc).1.PublicDirectory =
        (dirLoop fn defaultPublicDirectory defaultPrivateDirectory doc.Directories).1.1 ∧
      (GetConfig fn doc).1.PrivateDirectory =
        (dirLoop fn defaultPublicDirectory defaultPrivateDirectory doc.Directories).1.2 ∧
      (GetConfig fn doc).1.ExtensionKey =
        (extLoop defaultExtensionKey defaultExtensionCert doc.Extensions).1.1 ∧
      (GetConfig fn doc).1.ExtensionCert =
        (extLoop defaultExtensionKey defaultExtensionCert doc.Extensions).1.2 :=
  getConfig_section_fields fn doc hd he

/-- Witness for the non-atomicity theorem: a document failing certificate
classification still exposes the resolved section values afterwards. -/
theorem GetConfig_partial_state_on_error_witness :
    (GetConfig "f" c1cex).1.PublicDirectory =
        (dirLoop "f" defaultPublicDirectory defaultPrivateDirectory c1cex.Directories).1.1 ∧
      (GetConfig "f" c1cex).1.PrivateDirectory =
        (dirLoop "f" defaultPublicDirectory defaultPrivateDirectory c1cex.Directories).1.2 ∧
      (GetConfig "f" c1cex).1.ExtensionKey =
        (extLoop defaultExtensionKey defaultExtensionCert c1cex.Extensions).1.1 ∧
      (GetConfig "f" c1cex).1.ExtensionCert =
        (extLoop defaultExtensionKey defaultExtensionCert c1cex.Extensions).1.2 :=
  GetConfig_partial_state_on_error "f" c1cex (invalidTypeMsg "bad" "bogus")
    (by decide) (by decide) (by decide)

/-- Claim C9: an unrecognized key under the directories or extensions section
makes resolution fail with the unrecognized-entry error naming that key (the
first such key in its section, the directories section being checked first);
with clean sections, each absent recognized key keeps its documented default
("tls", "tls/private", "key", "pem") and each present recognized key replaces
its default. -/
theorem GetConfig_sections_resolution (fn : String) (doc : ConfigType) :
    (∀ (pre : List (String × String)) (k v : String) (post : List (String × String)),
      doc.Directories = pre ++ (k, v) :: post →
      (∀ q ∈ pre, q.1 = "public" ∨ q.1 = "private") →
      ¬(k = "public" ∨ k = "private") →
      (GetConfig fn doc).2 = some (invalidDirEntryMsg k fn)) ∧
    ((∀ p ∈ doc.Directories, p.1 = "public" ∨ p.1 = "private") →
      ∀ (pre : List (String × String)) (k v : String) (post : List (String × String)),
        doc.Extensions = pre ++ (k, v) :: post →
        (∀ q ∈ pre, q.1 = "key" ∨ q.1 = "certificate") →
        ¬(k = "key" ∨ k = "certificate") →
        (GetConfig fn doc).2 = some (invalidExtEntryMsg k v)) ∧
    ((∀ p ∈ doc.Directories, p.1 = "public" ∨ p.1 = "private") →
      (∀ p ∈ doc.Extensions, p.1 = "key" ∨ p.1 = "certificate") →
      (("public" ∉ doc.Directories.map Prod.fst →
          (GetConfig fn doc).1.PublicDirectory = "tls") ∧
        ("private" ∉ doc.Directories.map Prod.fst →
          (GetConfig fn doc).1.PrivateDirectory = "tls/private") ∧
        ("key" ∉ doc.Extensions.map Prod.fst → (GetConfig fn doc).1.ExtensionKey = "key") ∧
        ("certificate" ∉ doc.Extensions.map Prod.fst →
          (GetConfig fn doc).1.ExtensionCert = "pem")) ∧
      ((doc.Directories.map Prod.fst).Nodup →
        (∀ v, ("public", v) ∈ doc.Directories → (GetConfig fn doc).1.PublicDirectory = v) ∧
        (∀ v, ("private", v) ∈ doc.Directories → (GetConfig fn doc).1.PrivateDirectory = v)) ∧
      ((doc.Extensions.map Prod.fst).Nodup →
        (∀ v, ("key", v) ∈ doc.Extensions → (GetConfig fn doc).1.ExtensionKey = v) ∧
        (∀ v, ("certificate", v) ∈ doc.Extensions →
          (GetConfig fn doc).1.ExtensionCert = v))) := by
  refine ⟨?_, ?_, ?_⟩
  · intro pre k v post hsplit hpre hk
    have hd : (dirLoop fn defaultPublicDirectory defaultPrivateDirectory doc.Directories).2 =
        some (invalidDirEntryMsg k fn) := by
      unfold dirLoop
      rw [hsplit]
      exact twoKeyLoop_err_first "public" "private" _ pre k v post hpre hk _ _
    rw [GetConfig_dir_err fn doc _ hd]
  · intro hdirs pre k v post hsplit hpre hk
    have hd : (dirLoop fn defaultPublicDirectory defaultPrivateDirectory doc.Directories).2 =
        none := twoKeyLoop_ok "public" "private" _ doc.Directories hdirs _ _
    have he : (extLoop defaultExtensionKey defaultExtensionCert doc.Extensions).2 =
        some (invalidExtEntryMsg k v) := by
      unfold extLoop
      rw [hsplit]
      exact twoKeyLoop_err_first "key" "certificate" _ pre k v post hpre hk _ _
    rw [GetConfig_ext_err fn doc _ hd he]
  · intro hdirs hexts
    have hd : (dirLoop fn defaultPublicDirectory defaultPrivateDirectory doc.Directories).2 =
        none := twoKeyLoop_ok "public" "private" _ doc.Directories hdirs _ _
    have he : (extLoop defaultExtensionKey defaultExtensionCert doc.Extensions).2 =
        none := twoKeyLoop_ok "key" "certificate" _ doc.Extensions hexts _ _
    obtain ⟨hpub, hpriv, hkey, hcert⟩ := getConfig_section_fields fn doc hd he
    refine ⟨⟨?_, ?_, ?_, ?_⟩, ?_, ?_⟩
    · intro habs
      rw [hpub]
      exact twoKeyLoop_fst_absent "public" "private" _ doc.Directories habs _ _
    · intro habs
      rw [hpriv]
      exact twoKeyLoop_snd_absent "public" "private" _ doc.Directories habs _ _
    · intro habs
      rw [hkey]
      exact twoKeyLoop_fst_absent "key" "certificate" _ doc.Extensions habs _ _
    · intro habs
      rw [hcert]
      exact twoKeyLoop_snd_absent "key" "certificate" _ doc.Extensions habs _ _
    · intro hnd
      constructor
      · intro v hmem
        rw [hpub]
        exact twoKeyLoop_fst_mem "public" "private" _ doc.Directories v hdirs hnd hmem _ _
      · intro v hmem
        rw [hpriv]
        exact twoKeyLoop_snd_mem "public" "private" _ doc.Directories v (by decide) hdirs
          hnd hmem _ _
    · intro hnd
      constructor
      · intro v hmem
        rw [hkey]
        exact twoKeyLoop_fst_mem "key" "certificate" _ doc.Extensions v hexts hnd hmem _ _
      · intro v hmem
        rw [hcert]
        exact twoKeyLoop_snd_mem "key" "certificate" _ doc.Extensions v (by decide) hexts
          hnd hmem _ _

/-- Document with an unrecognized key in the directories section. -/
def c9bad : ConfigType := { Directories := [("backup", "/b")] }

/-- Document overriding one directory and one extension, leaving the other
keys to their defaults. -/
def c9good : ConfigType :=
  { Directories := [("private", "/p")], Extensions := [("key", "k2")] }

/-- Witness for the section-resolution theorem: the unknown key "backup"
fails naming it, and on a clean document present keys override while absent
keys keep the documented defaults. -/
theorem GetConfig_sections_resolution_witness :
    (GetConfig "f" c9bad).2 = some (invalidDirEntryMsg "backup" "f") ∧
      (GetConfig "f" c9good).1.PublicDirectory = "tls" ∧
      (GetConfig "f" c9good).1.PrivateDirectory = "/p" ∧
      (GetConfig "f" c9good).1.ExtensionKey = "k2" ∧
      (GetConfig "f" c9good).1.ExtensionCert = "pem" := by
  have hbad := (GetConfig_sections_resolution "f" c9bad).1 [] "backup" "/b" []
    (by decide) (by decide) (by decide)
  have hgood := (GetConfig_sections_resolution "f" c9good).2.2 (by decide) (by decide)
  exact ⟨hbad, hgood.1.1 (by decide), (hgood.2.1 (by decide)).2 "/p" (by decide),
    (hgood.2.2 (by decide)).1 "k2" (by decide), hgood.1.2.2.2 (by decide)⟩
